import Mathlib

/-!
Verification of the mcp-archetypes repository: shallow embedding of the
MCP client and server programs (`src/mcp_clients`, `src/mcp_servers`) and
proofs about the behaviour claimed in the specification.

Conventions of the embedding:
* Python exceptions are modelled with `Except String`; a `try/except`
  block that collapses every failure to `None` is modelled by `Except.toOption`.
* JSON values parsed by Python's `json.loads` / `response.json()` are
  modelled by the inductive type `Json`; the parser `jsonLoads` models
  `json.loads` on the integer-number subset of the grammar (the repository
  never relies on fractional numbers, `\uXXXX` escapes, or the
  leading-zero rule).
* External effects (HTTP requests, the Bedrock LLM, MCP sampling, tool
  invocation, the file system) are oracles passed in as functions.
-/

namespace Mcp

/-- JSON values as produced by Python's `json.loads`: `None`, booleans,
(integer) numbers, strings, lists and dicts (association lists in key
order). -/
inductive Json where
  | null
  | bool (b : Bool)
  | num (n : Int)
  | str (s : String)
  | arr (elems : List Json)
  | obj (fields : List (String × Json))

/-- Lookup of a key in an association list of JSON object fields,
first match wins (Python dicts cannot hold duplicate keys). -/
def lookupKV : List (String × Json) → String → Option Json
  | [], _ => none
  | (k, v) :: kvs, key => if k = key then some v else lookupKV kvs key

/-- Python subscription `j[key]` with a string key: succeeds only on a
dict that has the key (`KeyError` otherwise); any non-dict raises
`TypeError`. -/
def Json.getItem : Json → String → Except String Json
  | .obj kvs, key =>
    match lookupKV kvs key with
    | some v => .ok v
    | none => .error ("KeyError: " ++ key)
  | _, _ => .error "TypeError: object is not subscriptable by string"

/-- Python `d.get(key, default)`: defined on dicts only (`AttributeError`
on every other JSON value). -/
def Json.dictGet : Json → String → Json → Except String Json
  | .obj kvs, key, dflt => .ok ((lookupKV kvs key).getD dflt)
  | _, _, _ => .error "AttributeError: object has no attribute get"

/-- Python truthiness of a JSON value (`if not data: ...`). -/
def Json.pyTruthy : Json → Bool
  | .null => false
  | .bool b => b
  | .num n => n != 0
  | .str s => !s.isEmpty
  | .arr xs => !xs.isEmpty
  | .obj kvs => !kvs.isEmpty

/-- Python iteration `for x in j`: elements of a list, keys of a dict,
one-character strings of a string; everything else raises `TypeError`. -/
def pyIter : Json → Except String (List Json)
  | .arr xs => .ok xs
  | .obj kvs => .ok (kvs.map (fun kv => Json.str kv.1))
  | .str s => .ok (s.data.map (fun c => Json.str (String.mk [c])))
  | _ => .error "TypeError: object is not iterable"

/-- Decidable substring check on character lists (`needle` occurs inside
`hay`). -/
def charsContains (hay needle : List Char) : Bool :=
  match hay with
  | [] => needle.isEmpty
  | _ :: t => needle.isPrefixOf hay || charsContains t needle

/-- Substring check on strings, used to state what an error message
contains. -/
def strContainsSub (hay needle : String) : Bool :=
  charsContains hay.data needle.data

/-- Python membership test `key in j` for a string key: key membership on
dicts, element membership on lists, substring test on strings, `TypeError`
otherwise. -/
def pyInOp (key : String) (j : Json) : Except String Bool :=
  match j with
  | .obj kvs => .ok (kvs.any (fun kv => kv.1 == key))
  | .arr xs => .ok (xs.any (fun x => match x with | .str s => s == key | _ => false))
  | .str s => .ok (strContainsSub s key)
  | _ => .error "TypeError: argument is not iterable"

mutual

/-- Python `repr` of a JSON value (as interpolated into f-strings for
containers); quote-escaping inside rendered strings is elided, the
repository only renders quote-free data this way. -/
def pyRepr : Json → String
  | .null => "None"
  | .bool true => "True"
  | .bool false => "False"
  | .num n => toString n
  | .str s => "\x27" ++ s ++ "\x27"
  | .arr xs => "[" ++ String.intercalate ", " (pyReprList xs) ++ "]"
  | .obj kvs => "\x7b" ++ String.intercalate ", " (pyReprKVs kvs) ++ "\x7d"

/-- Helper of `pyRepr` for list elements. -/
def pyReprList : List Json → List String
  | [] => []
  | x :: xs => pyRepr x :: pyReprList xs

/-- Helper of `pyRepr` for dict entries. -/
def pyReprKVs : List (String × Json) → List String
  | [] => []
  | kv :: kvs => ("\x27" ++ kv.1 ++ "\x27: " ++ pyRepr kv.2) :: pyReprKVs kvs

end

/-- Python `str()` of a JSON value as used by f-string interpolation:
strings render without quotes, containers by `repr`. -/
def pyStr (j : Json) : String :=
  match j with
  | .str s => s
  | _ => pyRepr j

/-- Replacement of every non-overlapping occurrence of `pat` (non-empty)
by `rep`, scanning left to right as Python's `str.replace`; the fuel is
instantiated with the input length, which suffices because every step
consumes at least one character. -/
def replaceCharsFuel (pat rep : List Char) : Nat → List Char → List Char
  | 0, s => s
  | _ + 1, [] => []
  | fuel + 1, c :: cs =>
    if pat.isPrefixOf (c :: cs) ∧ pat ≠ [] then
      rep ++ replaceCharsFuel pat rep fuel (cs.drop (pat.length - 1))
    else c :: replaceCharsFuel pat rep fuel cs

/-- Python `s.replace(pat, rep)` for a non-empty pattern. -/
def strReplace (s pat rep : String) : String :=
  String.mk (replaceCharsFuel pat.data rep.data s.data.length s.data)

/-- Split of a character list at every occurrence of `sep`, keeping empty
pieces, as Python's `str.split(sep)` for a one-character separator. -/
def splitOnCharAux (sep : Char) : List Char → List Char → List String
  | [], acc => [String.mk acc.reverse]
  | c :: cs, acc =>
    if c = sep then String.mk acc.reverse :: splitOnCharAux sep cs []
    else splitOnCharAux sep cs (c :: acc)

/-- Split of a string at a one-character separator. -/
def splitOnChar (sep : Char) (s : String) : List String :=
  splitOnCharAux sep s.data []

/-- Whitespace skipping of the JSON grammar. -/
def skipWs : List Char → List Char
  | [] => []
  | c :: cs => if c = ' ' ∨ c = '\n' ∨ c = '\t' ∨ c = '\r' then skipWs cs else c :: cs

/-- JSON string escapes supported by the model (`\uXXXX` is not, see the
module comment). -/
def escChar (e : Char) : Option Char :=
  if e = '"' then some '"'
  else if e = '\\' then some '\\'
  else if e = '/' then some '/'
  else if e = 'n' then some '\n'
  else if e = 't' then some '\t'
  else if e = 'r' then some '\r'
  else if e = 'b' then some (Char.ofNat 8)
  else if e = 'f' then some (Char.ofNat 12)
  else none

/-- Body of a JSON string after its opening quote: returns the decoded
string and the input following the closing quote. -/
def parseStringBody (fuel : Nat) (cs : List Char) : Option (String × List Char) :=
  match fuel, cs with
  | 0, _ => none
  | _ + 1, [] => none
  | fuel' + 1, c :: rest =>
    if c = '"' then some ("", rest)
    else if c = '\\' then
      match rest with
      | [] => none
      | e :: rest2 =>
        match escChar e with
        | none => none
        | some ec =>
          (parseStringBody fuel' rest2).map (fun p => (String.mk (ec :: p.1.data), p.2))
    else (parseStringBody fuel' rest).map (fun p => (String.mk (c :: p.1.data), p.2))

/-- Leading decimal digits of the input. -/
def takeDigits : List Char → List Char × List Char
  | [] => ([], [])
  | c :: cs =>
    if c.isDigit then
      let p := takeDigits cs
      (c :: p.1, p.2)
    else ([], c :: cs)

/-- Numeric value of a digit list. -/
def digitsToNat (ds : List Char) : Nat :=
  ds.foldl (fun a c => a * 10 + (c.toNat - 48)) 0

/-- Opening brace character, kept as a named constant. -/
def lbraceChar : Char := Char.ofNat 123

/-- Closing brace character, kept as a named constant. -/
def rbraceChar : Char := Char.ofNat 125

/-- Integer literal of the JSON grammar (optional minus sign and digits). -/
def parseNum (cs : List Char) : Option (Json × List Char) :=
  match cs with
  | '-' :: rest =>
    match takeDigits rest with
    | ([], _) => none
    | (ds, rest2) => some (Json.num (-(digitsToNat ds : Int)), rest2)
  | _ =>
    match takeDigits cs with
    | ([], _) => none
    | (ds, rest2) => some (Json.num (digitsToNat ds), rest2)

mutual

/-- Recursive-descent JSON value parser modelling `json.loads` (fuel-based;
`jsonLoads` supplies enough fuel since every recursive step consumes
input). -/
def parseVal (fuel : Nat) (cs : List Char) : Option (Json × List Char) :=
  match fuel with
  | 0 => none
  | fuel' + 1 =>
    match skipWs cs with
    | [] => none
    | c :: rest =>
      if c = '"' then
        (parseStringBody (fuel' + 1) rest).map (fun p => (Json.str p.1, p.2))
      else if c = lbraceChar then
        match skipWs rest with
        | c2 :: rest2 =>
          if c2 = rbraceChar then some (Json.obj [], rest2)
          else
            (parseObjItems fuel' (c2 :: rest2)).map (fun p => (Json.obj p.1, p.2))
        | [] => none
      else if c = '[' then
        match skipWs rest with
        | c2 :: rest2 =>
          if c2 = ']' then some (Json.arr [], rest2)
          else
            (parseArrItems fuel' (c2 :: rest2)).map (fun p => (Json.arr p.1, p.2))
        | [] => none
      else if c = '-' ∨ c.isDigit then parseNum (c :: rest)
      else if List.isPrefixOf "true".data (c :: rest) then
        some (Json.bool true, (c :: rest).drop 4)
      else if List.isPrefixOf "false".data (c :: rest) then
        some (Json.bool false, (c :: rest).drop 5)
      else if List.isPrefixOf "null".data (c :: rest) then
        some (Json.null, (c :: rest).drop 4)
      else none

/-- Comma-separated `"key": value` members of a JSON object (at least one;
the empty object is handled by `parseVal`). -/
def parseObjItems (fuel : Nat) (cs : List Char) :
    Option (List (String × Json) × List Char) :=
  match fuel with
  | 0 => none
  | fuel' + 1 =>
    match skipWs cs with
    | [] => none
    | c :: rest =>
      if c = '"' then
        match parseStringBody (fuel' + 1) rest with
        | none => none
        | some (key, rest2) =>
          match skipWs rest2 with
          | ':' :: rest3 =>
            match parseVal fuel' rest3 with
            | none => none
            | some (v, rest4) =>
              match skipWs rest4 with
              | c2 :: rest5 =>
                if c2 = ',' then
                  (parseObjItems fuel' rest5).map (fun p => ((key, v) :: p.1, p.2))
                else if c2 = rbraceChar then some ([(key, v)], rest5)
                else none
              | [] => none
          | _ => none
      else none

/-- Comma-separated elements of a JSON array (at least one; the empty
array is handled by `parseVal`). -/
def parseArrItems (fuel : Nat) (cs : List Char) :
    Option (List Json × List Char) :=
  match fuel with
  | 0 => none
  | fuel' + 1 =>
    match parseVal fuel' cs with
    | none => none
    | some (v, rest) =>
      match skipWs rest with
      | c :: rest2 =>
        if c = ',' then
          (parseArrItems fuel' rest2).map (fun p => (v :: p.1, p.2))
        else if c = ']' then some ([v], rest2)
        else none
      | [] => none

end

/-- Model of Python's `json.loads`: parse one JSON value and require only
whitespace after it. -/
def jsonLoads (s : String) : Option Json :=
  match parseVal (s.length + 1) s.data with
  | some (j, rest) => if (skipWs rest).isEmpty then some j else none
  | none => none

/-! ## Blog Prompt Server (`src/mcp_servers/io_prompt_server.py`)

The five prompt templates are pure functions from parameters to text; the
`f`-string interpolation of a `List[str]` parameter renders it with
Python's `repr`. -/

/-- Python `str()` of a list of strings, as an f-string renders a
`List[str]` parameter. -/
def pyReprStrList (xs : List String) : String :=
  pyRepr (Json.arr (xs.map Json.str))

/-- Template `Greet MCP Server` (`greet_me`). -/
def greet_me (language : String) : String :=
  "Create a greeting for the user in the language " ++ language ++
    " (ISO 639 language code)"

/-- Template `Get Keywords From Code` (`get_keywords_from_code`). -/
def get_keywords_from_code (code : String) : String :=
  "\n        ROLE\n        You are a helpful developer or code analyst.\n        \n        TASK\n        The task is to analyse the input code and extract the technologies used in the code.\n        Define the technologies used in the code in 5 keywords. Focus on frameworks used, for instance Python libraries and\n        relevent protocols. Do not return basics of programming such as programming languages or core elements of a programming language standard library\n        \n        OUTPUT\n        Return the keywords as STRICT JSON, with the key \"keywords\" and a list of keywords. Example: \x7b\x27keywords\x27 : [\x27KeywordA\x27, \x27KeywordB\x27]\x7d\n        \n        CODE\n        " ++
    code ++ "\n        "

/-- Template `Get Intro From Keywords` (`create_intro_from_code`). -/
def create_intro_from_code (keywords : List String) : String :=
  "\n        ROLE\n        You are a blogger for code development, writing articles for a data science audience.\n        \n        TASK\n        Write an intro section of 5-7 sentences for a blogpost.\n        The blogpost focuses on a topics described by those keywords.\n        \n        Return the blog intro.\n        \n        KEYWORDS\n        " ++
    pyReprStrList keywords ++ "\n        "

/-- Template `Get Main Section From Code` (`create_main_section_from_code`). -/
def create_main_section_from_code (keywords : List String) (code : String) : String :=
  "\n        ROLE\n        You are a blogger for code development, writing articles for a data science audience.\n        \n        TASK\n        1 ) Analyse the provided code and extract 5 sections of code which are related to the provided keywords.\n        2 ) Provide for each code section a short description\n        3 ) Aggregate the code plus description into a main part of the blogpost\n        \n        OUTPUT\n        Return the main part of the blogpost.\n        \n        INPUT\n        KEYWORDS\n        " ++
    pyReprStrList keywords ++
    "\n        \n        INPUT\n        CODE\n        " ++ code ++ "\n        "

/-- Template `Aggregate Blog Sections` (`aggregate_blog_sections`). -/
def aggregate_blog_sections (intro mainPart outlook : String) : String :=
  "\n        ROLE\n        You are a blogger for code development, writing articles for a data science audience.\n        \n        TASK\n        1) Combine the input from intro, main and outlook blog parts into a single post.\n        2) Polish the language into a clear, professional tone.\n        \n        OUTPUT\n        Return the final blog post\n        \n        INPUT\n        INTRO\n        " ++
    intro ++ "\n        \n        INPUT\n        MAIN\n        " ++ mainPart ++
    "\n        \n        OUTLOOK\n        " ++ outlook ++ "\n        "

/-! ## Blog-Post Prompt Client (`src/mcp_clients/io_prompt_client_bedrock.py`)

The Bedrock `converse` call is an oracle `llm : String → String` from the
single user message's text to the reply text (the code sends exactly one
user message per step and reads `output.message.content[0].text`).
`client.get_prompt` is modelled as the rendered server template; the code
interpolates the protocol-level prompt result object into the message
text, which we abstract as the rendered text itself, surrounded by the
f-string's literal whitespace. -/

/-- Wrapping of a fetched prompt into the single user message text
(`f"\n                {prompt}\n            "` in each step). -/
def wrapPromptMessage (p : String) : String :=
  "\n                " ++ p ++ "\n            "

/-- Stripping of markdown code fences before JSON parsing
(`keywords_json.replace("```json", "").replace("```", "")`; Python
`str.replace` replaces every occurrence, as does `String.replace`). -/
def stripFences (s : String) : String :=
  strReplace (strReplace s "```json" "") "```" ""

/-- Step `run_keyword_prompt`: renders `Get Keywords From Code`, sends it
to the LLM, strips fences from the reply and parses it with `json.loads`;
a parse failure raises `ValueError("Error Loading Keyword Response")`.
Note that the parsed JSON value is returned as is (the `keywords` list is
not extracted from it). -/
def run_keyword_prompt (llm : String → String) (code : String) : Except String Json :=
  let keywords_prompt := get_keywords_from_code code
  let keywords_json := llm (wrapPromptMessage keywords_prompt)
  match jsonLoads (stripFences keywords_json) with
  | some keywords => .ok keywords
  | none => .error "Error Loading Keyword Response"

/-- Record of one downstream prompt-step invocation together with the
keyword list it was invoked with. -/
structure BlogStepCall where
  step : String
  keywords : List String
deriving DecidableEq

/-- Step `run_intro_prompt`: renders `Get Intro From Keywords` with its
`keywords` argument and returns the LLM reply, recording the invocation. -/
def run_intro_prompt (llm : String → String) (keywords : List String) :
    String × BlogStepCall :=
  (llm (wrapPromptMessage (create_intro_from_code keywords)), ⟨"intro", keywords⟩)

/-- Step `run_main_prompt`: renders `Get Main Section From Code` with its
`keywords` and `code` arguments and returns the LLM reply, recording the
invocation. -/
def run_main_prompt (llm : String → String) (keywords : List String) (code : String) :
    String × BlogStepCall :=
  (llm (wrapPromptMessage (create_main_section_from_code keywords code)),
   ⟨"main", keywords⟩)

/-- Step `run_aggregate_prompt`: renders `Aggregate Blog Sections` and
returns the LLM reply. -/
def run_aggregate_prompt (llm : String → String) (intro mainPart outlook : String) :
    String :=
  llm (wrapPromptMessage (aggregate_blog_sections intro mainPart outlook))

/-- Literal outlook text of `MCPClient.run`. -/
def outlook_text : String :=
  "\n            If you want to learn more about MCP, or have questions on individual blog posts, visit www.evo-byte.com\n            "

/-- Method `MCPClient.run` of the blog-post client: keyword step on the
code text, then the intro step with the literal list
`['MCP', 'FastMCP', 'Prompts']`, the main step with the same literal list
and the code, and the aggregate step. Returns the final blog post (or the
keyword step's error) together with the recorded intro/main step
invocations, in order. -/
def MCPClient_run (llm : String → String) (code : String) :
    Except String String × List BlogStepCall :=
  match run_keyword_prompt llm code with
  | .error e => (.error e, [])
  | .ok _keywords =>
    let introStep := run_intro_prompt llm ["MCP", "FastMCP", "Prompts"]
    let mainStep := run_main_prompt llm ["MCP", "FastMCP", "Prompts"] code
    let blogpost := run_aggregate_prompt llm introStep.1 mainStep.1 outlook_text
    (.ok blogpost, [introStep.2, mainStep.2])

/-! ## Sales Resource Server (`src/mcp_servers/io_resource_server.py`)

The file system is an oracle `fs : String → Option String` from (posix)
path to file content; `os.path.isfile` succeeding and the subsequent read
are merged into one lookup. The absolute directory prefix of the server
script is abstracted away: paths are rooted at the server's `data`
directory. `pandas.read_csv` is modelled as comma-splitting with a header
row, blank lines skipped; its dtype inference is elided and every cell is
kept as raw text. -/

/-- Directory holding the monthly CSV files. -/
def sales_base_path : String := "data/sales_data"

/-- Lower-casing of one ASCII character. -/
def charLower (c : Char) : Char :=
  if 'A' ≤ c ∧ c ≤ 'Z' then Char.ofNat (c.toNat + 32) else c

/-- Python `str.lower` (the repository applies it to ASCII month names,
on which ASCII lowering agrees with Python's Unicode lowering). -/
def pyLower (s : String) : String := String.mk (s.data.map charLower)

/-- Resolved CSV path `<sales-data-dir>/<month>_<year>.csv` built by
`get_sales` after lower-casing the month. -/
def sales_path (year : Int) (month : String) : String :=
  sales_base_path ++ "/" ++ pyLower month ++ "_" ++ toString year ++ ".csv"

/-- CSV parsing as `pandas.read_csv(..., sep=',')` followed by
`to_dict(orient='records')`: first non-blank line is the header, every
further non-blank line becomes one record pairing header fields with the
line's comma-separated cells, in file order. -/
def parseCsv (content : String) : List (List (String × String)) :=
  match (splitOnChar '\n' content).filter (fun l => !l.isEmpty) with
  | [] => []
  | header :: rows =>
    let cols := splitOnChar ',' header
    rows.map (fun r => cols.zip (splitOnChar ',' r))

/-- Resource handler `get_sales(year, month)`: lower-cases the month,
resolves the CSV path, returns the parsed records if the file exists and
raises `FileNotFoundError` with the literal message of the source
otherwise. -/
def get_sales (fs : String → Option String) (year : Int) (month : String) :
    Except String (List (List (String × String))) :=
  let month' := pyLower month
  let sales_csv_file := sales_path year month
  match fs sales_csv_file with
  | some content => .ok (parseCsv content)
  | none =>
    .error ("Sales data for " ++ month' ++ " " ++ toString year ++ " not found at " ++
      sales_csv_file ++ ". Month must be written, month must be numeric")

/-! ## Weather OAuth API Server (`src/mcp_servers/oauth_github_api_server.py`)

The HTTP layer is an oracle `fetch : String → FetchOutcome` from URL to
either a transport-level exception (network error, timeout, invalid URL)
or a status code with a response body. `response.raise_for_status()`
raises on every non-2xx status and `response.json()` on an unparsable
body; both raises are caught by the helper's `except` clause. -/

/-- Outcome of one `httpx` GET: a raised transport exception, or a
response with its status code and body text. -/
inductive FetchOutcome where
  | exn
  | response (status : Nat) (body : String)

/-- Helper `make_nws_request(url)`: performs the GET and collapses every
failure (exception, non-2xx status, unparsable body) to `None` inside its
`try/except`. -/
def make_nws_request (fetch : String → FetchOutcome) (url : String) : Option Json :=
  match fetch url with
  | .exn => none
  | .response status body =>
    if 200 ≤ status ∧ status ≤ 299 then jsonLoads body else none

/-- Base URL constant `NWS_API_BASE`. -/
def NWS_API_BASE : String := "https://api.weather.gov"

/-- Helper `format_alert(feature)`: reads `feature["properties"]` (a
`KeyError`/`TypeError` if absent or not a dict) and renders the alert
block with `props.get` defaults for each field. -/
def format_alert (feature : Json) : Except String String := do
  let props ← feature.getItem "properties"
  let ev ← props.dictGet "event" (Json.str "Unknown")
  let area ← props.dictGet "areaDesc" (Json.str "Unknown")
  let sev ← props.dictGet "severity" (Json.str "Unknown")
  let desc ← props.dictGet "description" (Json.str "No description available")
  let instr ← props.dictGet "instruction" (Json.str "No specific instructions provided")
  pure ("\n        Event: " ++ pyStr ev ++ "\n        Area: " ++ pyStr area ++
    "\n        Severity: " ++ pyStr sev ++ "\n        Description: " ++ pyStr desc ++
    "\n        Instructions: " ++ pyStr instr ++ "\n    ")

/-- Tool `get_alerts(state)`: fetches the active alerts for the state and
renders them; an uncaught Python exception outside the fetch helper is an
`Except.error`. -/
def get_alerts (fetch : String → FetchOutcome) (state : String) : Except String String := do
  let url := NWS_API_BASE ++ "/alerts/active/area/" ++ state
  match make_nws_request fetch url with
  | none => pure "Unable to fetch alerts or no alerts found."
  | some data =>
    if !data.pyTruthy then pure "Unable to fetch alerts or no alerts found."
    else do
      let mem ← pyInOp "features" data
      if !mem then pure "Unable to fetch alerts or no alerts found."
      else do
        let features ← data.getItem "features"
        if !features.pyTruthy then pure "No active alerts for this state."
        else do
          let items ← pyIter features
          let alerts ← items.mapM format_alert
          pure (String.intercalate "\n---\n" alerts)

/-- Rendering of one forecast period inside `get_forecast`'s loop; every
field access is a plain subscription, so a missing field raises. The
source file's temperature line contains the mojibake byte sequence
`U+00C2 U+00B0` before the unit. -/
def render_forecast_period (period : Json) : Except String String := do
  let name ← period.getItem "name"
  let temp ← period.getItem "temperature"
  let tempUnit ← period.getItem "temperatureUnit"
  let windSpeed ← period.getItem "windSpeed"
  let windDir ← period.getItem "windDirection"
  let detailed ← period.getItem "detailedForecast"
  pure ("\n            " ++ pyStr name ++ ":\n            Temperature: " ++ pyStr temp ++
    "Â°" ++ pyStr tempUnit ++ "\n            Wind: " ++ pyStr windSpeed ++ " " ++
    pyStr windDir ++ "\n            Forecast: " ++ pyStr detailed ++ "\n            ")

/-- Python slice `periods[:5]` followed by iteration: the first five list
elements, the first five characters of a string, `TypeError` otherwise. -/
def pySliceTake5 : Json → Except String (List Json)
  | .arr ps => .ok (ps.take 5)
  | .str s => .ok ((s.data.take 5).map (fun c => Json.str (String.mk [c])))
  | _ => .error "TypeError: unhashable type: slice"

/-- Tool `get_forecast(latitude, longitude)`: resolves the gridpoint, then
the forecast URL, and renders the first five periods. The coordinates are
modelled by their rendered text (Python interpolates the floats into the
URL). `points_data["properties"]["forecast"]` is read without a fallback;
passing a non-string URL to `httpx` raises inside the helper's `try` and
therefore yields `None`. -/
def get_forecast (fetch : String → FetchOutcome) (latitude longitude : String) :
    Except String String := do
  let points_url := NWS_API_BASE ++ "/points/" ++ latitude ++ "," ++ longitude
  match make_nws_request fetch points_url with
  | none => pure "Unable to fetch forecast data for this location."
  | some points_data =>
    if !points_data.pyTruthy then pure "Unable to fetch forecast data for this location."
    else do
      let props ← points_data.getItem "properties"
      let forecast_url ← props.getItem "forecast"
      let forecast_data? :=
        match forecast_url with
        | Json.str u => make_nws_request fetch u
        | _ => none
      match forecast_data? with
      | none => pure "Unable to fetch detailed forecast."
      | some forecast_data =>
        if !forecast_data.pyTruthy then pure "Unable to fetch detailed forecast."
        else do
          let fprops ← forecast_data.getItem "properties"
          let periods ← fprops.getItem "periods"
          let firstFive ← pySliceTake5 periods
          let forecasts ← firstFive.mapM render_forecast_period
          pure (String.intercalate "\n---\n" forecasts)

/-! ## Space News Sampling Server (`src/mcp_servers/io_api_sampling_server.py`)

The date is modelled by its ISO rendering (`date.isoformat()`); the MCP
sampling capability is an oracle `sample : String → Option String` where
`none` models `ctx.sample` raising. -/

/-- Base URL constant `API_BASE`. -/
def API_BASE : String := "https://api.spaceflightnewsapi.net/v4/articles/"

/-- Body of `get_spaceflight_news_date`'s `try` block after a successful
request: read `response.json()['results']`, iterate it and read
`res['title']` and `res['summary']` of every entry. -/
def newsFromJson (j : Json) : Except String (List (Json × Json)) := do
  let results ← j.getItem "results"
  let items ← pyIter results
  items.mapM (fun res => do
    let t ← res.getItem "title"
    let s ← res.getItem "summary"
    pure (t, s))

/-- Helper `get_spaceflight_news_date(date)`: requests the articles
published since the date and collapses every failure (exception, non-2xx
status, unparsable body, missing key, wrong shape) to `None` inside its
`try/except`. -/
def get_spaceflight_news_date (fetch : String → FetchOutcome) (dateIso : String) :
    Option (List (Json × Json)) :=
  let endpoint := API_BASE ++ "?published_at_gte=" ++ dateIso
  match fetch endpoint with
  | .exn => none
  | .response status body =>
    if 200 ≤ status ∧ status ≤ 299 then
      match jsonLoads body with
      | none => none
      | some j => (newsFromJson j).toOption
    else none

/-- Reformatting of the fetched `(title, summary)` pairs into the
`{'title': ..., 'summary': ...}` dicts `news_out`. -/
def news_out_of (l : List (Json × Json)) : List Json :=
  l.map (fun ts => Json.obj [("title", ts.1), ("summary", ts.2)])

/-- Translation instruction built for a non-`EN` language, embedding the
language code and the `{news_out}` list rendered by `str()`. -/
def translation_prompt (language : String) (news_out : List Json) : String :=
  "Translate the title and the summary of each news entry into the language " ++
    language ++
    " (ISO639 format).\n                \n                The input format is a  json list of key-value pairs with \"title\" : \"News Title\" and \"summary\" : \"News Summary\".\n                The expected return format must be a json list of key-value pairs with keys \"title\" and \"summary\", and the values must be translated into the specified language\n            \n                Example Language : DE\n                Example Input: \n                    [\n                        \x7b\x27title\x27 : \"Live Coverage: SpaceX Falcon 9 to make another attempt to launch Amazon Project Kuiper mission\",\n                        \x27summary\x27 : \"Liftoff from Space Launch Complex 40 at Cape Canaveral Space Force Station in Florida is scheduled for 8:57 a.m. EDT (1257 UTC), after three earlier attempts were scrubbed.\"\x7d\n                    ]\n                Example Output:\n                    [\n                        \x7b\n                        \x27title\x27 : \"Live Übertragung: SpaceX Falcon 9 macht erneuten Cersuch für Amazon Projekt Kuiper Mission\",\n                        \x27summary\x27 : \"Start von Space Launch Complex 40 auf Cape Canaveral Space Force Station in Florida ist geplant für 8:57 a.m. EDT (1257 UTC), nachdem dre vorherige Termine abgesagt wurden.\"\x7d\n                    ]\n\n                Input News Data (json-format)\n                " ++
    pyStr (Json.arr news_out) ++ "\n            "

/-- Result of the `get_todays_spacenews` tool: either the untranslated
`news_out` list or the sampling response returned verbatim. -/
inductive SpacenewsReturn where
  | news (items : List Json)
  | sampled (response : String)

/-- Tool `get_todays_spacenews(language='EN')`: fetch today's news (a
falsy result — `None` or the empty list — aborts with the protocol error
`"API Call Failed."`), reformat into `news_out`, and for a non-`EN`
language run one sampling call whose failure aborts with
`"Translation failed, LLM Sampling not available."`. The second component
counts the sampling calls made. -/
def get_todays_spacenews (fetch : String → FetchOutcome) (sample : String → Option String)
    (dateIso : String) (language : String) : Except String SpacenewsReturn × Nat :=
  let news_today := get_spaceflight_news_date fetch dateIso
  match news_today with
  | none => (.error "API Call Failed.", 0)
  | some l =>
    if l.isEmpty then (.error "API Call Failed.", 0)
    else
      let news_out := news_out_of l
      if language ≠ "EN" then
        match sample (translation_prompt language news_out) with
        | none => (.error "Translation failed, LLM Sampling not available.", 1)
        | some response => (.ok (.sampled response), 1)
      else (.ok (.news news_out), 0)

/-! ## Weather Tool Clients (`src/mcp_clients/io_tools_client_bedrock.py` and
`src/mcp_clients/oauth_github_tools_client_bedrock.py`)

Both files contain the same `process_query` algorithm (method
`MCPClient.process_query` in the stdio client, free function
`process_query` in the OAuth client); this embedding models both. The
Bedrock `converse` call is an oracle from the accumulated message list to
the reply's content-block list (the system persona and tool configuration
are fixed throughout one call and are elided from the oracle's domain);
the MCP tool invocation is an oracle from tool name and rendered argument
dict to the result's content items. A content block is a dict that may
carry a `text` entry and/or a `toolUse` entry, matching the code's two
independent `in` tests. -/

/-- Component `content['toolUse']` of a content block. -/
structure ToolUseBlock where
  name : String
  input : String
  toolUseId : String
deriving DecidableEq

/-- One content block of an LLM reply. -/
structure ContentBlock where
  text? : Option String
  toolUse? : Option ToolUseBlock
deriving DecidableEq

/-- One item of a tool result's `content` list (`res.type`, `res.text`). -/
structure ToolResultItem where
  type : String
  text : String
deriving DecidableEq

/-- One entry of a message's `content` list: a reply content block, or a
`toolResult` dict with the originating call id and the collected texts. -/
inductive MsgItem where
  | block (b : ContentBlock)
  | toolResult (toolUseId : String) (content : List String)
deriving DecidableEq

/-- One conversation message. -/
structure Message where
  role : String
  content : List MsgItem
deriving DecidableEq

/-- State threaded through `process_query`'s content loop: the output
buffer, the assistant-content accumulator, the message history, and the
number of tool invocations and follow-up LLM calls made so far. -/
structure PQState where
  final_text : List String
  assistant_message_content : List MsgItem
  messages : List Message
  toolCalls : Nat
  followUps : Nat
deriving DecidableEq

/-- Processing of one content block of the initial reply: a `text` entry
is appended to the output buffer and the accumulator; a `toolUse` entry
triggers the tool invocation, the diagnostic line, the two appended
history messages, the follow-up LLM call, and the append of the
follow-up's `content[0]['text']` (an `IndexError`/`KeyError` if the
follow-up reply's first block carries no text). -/
def process_block (llm : List Message → List ContentBlock)
    (callTool : String → String → List ToolResultItem)
    (st : PQState) (content : ContentBlock) : PQState × Option String :=
  let st :=
    match content.text? with
    | some t =>
      { st with final_text := st.final_text ++ [t],
                assistant_message_content := st.assistant_message_content ++ [.block content] }
    | none => st
  match content.toolUse? with
  | none => (st, none)
  | some tu =>
    let tool_result := callTool tu.name tu.input
    let tool_result_content :=
      tool_result.filterMap (fun r => if r.type = "text" then some r.text else none)
    let final_text := st.final_text ++
      ["[Calling tool " ++ tu.name ++ " with args " ++ tu.input ++ "]"]
    let assistant_message_content := st.assistant_message_content ++ [.block content]
    let messages := st.messages ++
      [⟨"assistant", assistant_message_content⟩,
       ⟨"user", [.toolResult tu.toolUseId tool_result_content]⟩]
    let reply := llm messages
    let st' : PQState :=
      ⟨final_text, assistant_message_content, messages, st.toolCalls + 1, st.followUps + 1⟩
    match reply with
    | [] => (st', some "IndexError: list index out of range")
    | b :: _ =>
      match b.text? with
      | none => (st', some "KeyError: text")
      | some t2 => ({ st' with final_text := final_text ++ [t2] }, none)

/-- Left-to-right loop of `process_query` over the initial reply's
content blocks, stopping at the first raised exception. -/
def process_loop (llm : List Message → List ContentBlock)
    (callTool : String → String → List ToolResultItem) :
    List ContentBlock → PQState → PQState × Option String
  | [], st => (st, none)
  | c :: cs, st =>
    match process_block llm callTool st c with
    | (st', none) => process_loop llm callTool cs st'
    | (st', some e) => (st', some e)

/-- Initial message list seeded with the raw query text. -/
def initMessages (query : String) : List Message :=
  [⟨"user", [.block ⟨some query, none⟩]⟩]

/-- Function `process_query(query)` of both weather tool clients: returns
the newline join of the output buffer (or the uncaught exception),
together with the number of tool invocations and of follow-up LLM calls
performed. -/
def process_query (llm : List Message → List ContentBlock)
    (callTool : String → String → List ToolResultItem) (query : String) :
    Except String String × Nat × Nat :=
  let messages := initMessages query
  let reply := llm messages
  let st0 : PQState := ⟨[], [], messages, 0, 0⟩
  match process_loop llm callTool reply st0 with
  | (st, none) => (.ok (String.intercalate "\n" st.final_text), st.toolCalls, st.followUps)
  | (st, some e) => (.error e, st.toolCalls, st.followUps)

/-! ## Auxiliary definitions for the statements below -/

/-- Failure of one HTTP outcome, following the spec's taxonomy: transport
exception (network error, timeout), non-2xx status, or unparsable body. -/
def httpFailure : FetchOutcome → Bool
  | .exn => true
  | .response status body =>
    !(decide (200 ≤ status ∧ status ≤ 299)) || (jsonLoads body).isNone

/-- Message history passed to the follow-up LLM call when the initial
reply consists of text-only blocks `pre`, then the tool-use block `tb`
carrying `tu`, then further blocks: the seeded user message, the
assistant message with the accumulated content, and the user message
with the tool result. -/
def followUpMessages (query : String) (pre : List ContentBlock) (tb : ContentBlock)
    (tu : ToolUseBlock) (callTool : String → String → List ToolResultItem) : List Message :=
  initMessages query ++
    [⟨"assistant", (pre.filter (fun b => b.text?.isSome)).map MsgItem.block ++ [.block tb]⟩,
     ⟨"user", [.toolResult tu.toolUseId
        ((callTool tu.name tu.input).filterMap
          (fun r => if r.type = "text" then some r.text else none))]⟩]

/-- File-system oracle holding exactly `data/sales_data/march_2024.csv`
with header `id,amount` and two data rows. -/
def fsMarch : String → Option String :=
  fun p => if p = "data/sales_data/march_2024.csv" then
    some "id,amount\n1,100\n2,200" else none

/-- HTTP oracle whose alerts response carries one feature without a
`properties` mapping. -/
def fetchAlertsNoProps : String → FetchOutcome :=
  fun _ => .response 200 "\x7b\"features\": [\x7b\"event\": \"Fire\"\x7d]\x7d"

/-- HTTP oracle whose alerts response carries an empty `features` list. -/
def fetchAlertsEmpty : String → FetchOutcome :=
  fun _ => .response 200 "\x7b\"features\": []\x7d"

/-- HTTP oracle whose alerts response is a non-empty object without a
`features` field. -/
def fetchAlertsNoFeatures : String → FetchOutcome :=
  fun _ => .response 200 "\x7b\"title\": 1\x7d"

/-- HTTP oracle whose alerts response carries one feature whose
`properties` lack `event` and `severity`. -/
def fetchAlertsOne : String → FetchOutcome :=
  fun _ => .response 200
    "\x7b\"features\": [\x7b\"properties\": \x7b\"areaDesc\": \"Denver\", \"description\": \"Dry\", \"instruction\": \"Care\"\x7d\x7d]\x7d"

/-- Points URL used by the concrete forecast oracles. -/
def pointsUrlC9 : String := "https://api.weather.gov/points/39.74,-104.99"

/-- HTTP oracle serving a points response and a forecast response with
eight periods, the last three of which are `null`. -/
def fetchForecast8 : String → FetchOutcome := fun url =>
  if url = pointsUrlC9 then
    .response 200 "\x7b\"properties\": \x7b\"forecast\": \"https://fc.example/f\"\x7d\x7d"
  else
    .response 200
      "\x7b\"properties\": \x7b\"periods\": [\x7b\"name\": \"P1\", \"temperature\": 1, \"temperatureUnit\": \"F\", \"windSpeed\": \"5\", \"windDirection\": \"NW\", \"detailedForecast\": \"ok\"\x7d, \x7b\"name\": \"P2\", \"temperature\": 2, \"temperatureUnit\": \"F\", \"windSpeed\": \"5\", \"windDirection\": \"NW\", \"detailedForecast\": \"ok\"\x7d, \x7b\"name\": \"P3\", \"temperature\": 3, \"temperatureUnit\": \"F\", \"windSpeed\": \"5\", \"windDirection\": \"NW\", \"detailedForecast\": \"ok\"\x7d, \x7b\"name\": \"P4\", \"temperature\": 4, \"temperatureUnit\": \"F\", \"windSpeed\": \"5\", \"windDirection\": \"NW\", \"detailedForecast\": \"ok\"\x7d, \x7b\"name\": \"P5\", \"temperature\": 5, \"temperatureUnit\": \"F\", \"windSpeed\": \"5\", \"windDirection\": \"NW\", \"detailedForecast\": \"ok\"\x7d, null, null, null]\x7d\x7d"

/-- HTTP oracle whose points response is a truthy object without a
`properties` field. -/
def fetchPointsNoProps : String → FetchOutcome :=
  fun _ => .response 200 "\x7b\"title\": 1\x7d"

/-- HTTP oracle whose forecast response carries one period lacking the
`name` field. -/
def fetchPeriodNoName : String → FetchOutcome := fun url =>
  if url = pointsUrlC9 then
    .response 200 "\x7b\"properties\": \x7b\"forecast\": \"https://fc.example/f\"\x7d\x7d"
  else .response 200 "\x7b\"properties\": \x7b\"periods\": [\x7b\"temperature\": 70\x7d]\x7d\x7d"

/-- HTTP oracle serving one space-news article. -/
def fetchNews1 : String → FetchOutcome :=
  fun _ => .response 200 "\x7b\"results\": [\x7b\"title\": \"T\", \"summary\": \"S\"\x7d]\x7d"

/-- Tool-use block used by the concrete `process_query` runs. -/
def toolUseC5 : ToolUseBlock :=
  ⟨"get_alerts", "\x7b\x27state\x27: \x27CA\x27\x7d", "tooluse_1"⟩

/-- LLM oracle whose initial reply is one tool-use block followed by a
trailing text block, and whose follow-up reply is one text block. -/
def llmTrailingText : List Message → List ContentBlock := fun msgs =>
  if msgs.length = 1 then [⟨none, some toolUseC5⟩, ⟨some "TAIL", none⟩]
  else [⟨some "FOLLOW", none⟩]

/-- LLM oracle whose initial reply is one text block then one tool-use
block, and whose follow-up reply is one text block. -/
def llmOneToolUse : List Message → List ContentBlock := fun msgs =>
  if msgs.length = 1 then [⟨some "INIT", none⟩, ⟨none, some toolUseC5⟩]
  else [⟨some "FOLLOW", none⟩]

/-- Tool oracle returning one text result item. -/
def callToolC5 : String → String → List ToolResultItem :=
  fun _ _ => [⟨"text", "RESULT"⟩]

/-! ## Sanity checks of the embedding -/

example : jsonLoads "\n\x7b\"keywords\": [\"A\",\"B\"]\x7d\n" =
    some (Json.obj [("keywords", Json.arr [Json.str "A", Json.str "B"])]) := by
  rfl

example : jsonLoads "not json" = none := by rfl

example : jsonLoads " [1, true, null, \"x\", -7] " =
    some (Json.arr [Json.num 1, Json.bool true, Json.null, Json.str "x", Json.num (-7)]) := by
  rfl

example : pyReprStrList ["MCP", "FastMCP", "Prompts"] =
    "[\x27MCP\x27, \x27FastMCP\x27, \x27Prompts\x27]" := by rfl

example :
    get_sales fsMarch 2024 "March" =
      .ok [[("id", "1"), ("amount", "100")], [("id", "2"), ("amount", "200")]] := by
  rfl

/-! ## Helper lemmas -/

/-- Every list is a `isPrefixOf` of itself extended to the right. -/
theorem isPrefixOf_append_self (l r : List Char) : l.isPrefixOf (l ++ r) = true := by
  induction l with
  | nil => simp [List.isPrefixOf]
  | cons a as ih => simp [List.isPrefixOf, ih]

/-- A prefix of the haystack is contained in it. -/
theorem charsContains_of_isPrefixOf (hay needle : List Char)
    (h : needle.isPrefixOf hay = true) : charsContains hay needle = true := by
  cases hay with
  | nil =>
    cases needle with
    | nil => rfl
    | cons c cs => simp [List.isPrefixOf] at h
  | cons c t => simp [charsContains, h]

/-- Containment is preserved by extending the haystack to the left. -/
theorem charsContains_append_left (xs ys needle : List Char)
    (h : charsContains ys needle = true) : charsContains (xs ++ ys) needle = true := by
  induction xs with
  | nil => exact h
  | cons x xs ih => simp [charsContains, ih]

/-- A middle factor of a concatenation is a substring of it. -/
theorem strContainsSub_append (a b c : String) : strContainsSub (a ++ b ++ c) b = true := by
  unfold strContainsSub
  rw [String.data_append, String.data_append]
  rw [List.append_assoc]
  exact charsContains_append_left _ _ _
    (charsContains_of_isPrefixOf _ _ (isPrefixOf_append_self _ _))

set_option linter.unnecessarySimpa false in
/-- A right factor of a concatenation is a substring of it. -/
theorem strContainsSub_suffix (a b : String) : strContainsSub (a ++ b) b = true := by
  unfold strContainsSub
  rw [String.data_append]
  exact charsContains_append_left _ _ _
    (charsContains_of_isPrefixOf _ _
      (by simpa using isPrefixOf_append_self b.data []))

/-! ## Claim C1 -/

/-- C1: in the blog-post client's `run`, for every LLM behaviour and
every code text, whenever the keyword-extraction step returns (whatever
value it returns), the intro step and the main step are the only
downstream keyword-taking steps invoked and both are invoked with the
literal keyword list `["MCP", "FastMCP", "Prompts"]`, never with the
extracted keywords. -/
theorem blog_run_fixed_keywords (llm : String → String) (code : String) (kw : Json)
    (h : run_keyword_prompt llm code = .ok kw) :
    (MCPClient_run llm code).2 =
      [⟨"intro", ["MCP", "FastMCP", "Prompts"]⟩, ⟨"main", ["MCP", "FastMCP", "Prompts"]⟩] := by
  unfold MCPClient_run
  rw [h]
  rfl

/-- Witness for C1 at the LLM that always replies `[]` (a keyword step
that parses successfully). -/
theorem blog_run_fixed_keywords_witness :
    run_keyword_prompt (fun _ => "[]") "print(1)" = .ok (Json.arr []) ∧
    (MCPClient_run (fun _ => "[]") "print(1)").2 =
      [⟨"intro", ["MCP", "FastMCP", "Prompts"]⟩, ⟨"main", ["MCP", "FastMCP", "Prompts"]⟩] :=
  ⟨rfl, blog_run_fixed_keywords (fun _ => "[]") "print(1)" (Json.arr []) rfl⟩

/-! ## Claim C2 -/

/-- C2 (code bug): for the LLM reply `"```json\n{"keywords": ["A","B"]}\n```"`
the keyword step's produced value is the whole parsed JSON object
`{"keywords": ["A","B"]}` — not the keyword list `["A","B"]` that the
claim (and the function's own docstring and `List[str]` annotation)
promises, because `run_keyword_prompt` returns `json.loads`'s result
without extracting the `keywords` entry; a reply that is not valid JSON
after fence-stripping raises `"Error Loading Keyword Response"` as
claimed. -/
theorem keyword_step_returns_object_not_list :
    run_keyword_prompt (fun _ => "```json\n\x7b\"keywords\": [\"A\",\"B\"]\x7d\n```") "c" =
      .ok (Json.obj [("keywords", Json.arr [Json.str "A", Json.str "B"])]) ∧
    run_keyword_prompt (fun _ => "```json\n\x7b\"keywords\": [\"A\",\"B\"]\x7d\n```") "c" ≠
      .ok (Json.arr [Json.str "A", Json.str "B"]) ∧
    run_keyword_prompt (fun _ => "not json") "c" = .error "Error Loading Keyword Response" := by
  refine ⟨rfl, ?_, rfl⟩
  intro h
  have h2 : (Except.ok (Json.obj [("keywords", Json.arr [Json.str "A", Json.str "B"])]) :
      Except String Json) = .ok (Json.arr [Json.str "A", Json.str "B"]) := by
    rw [← h]
    rfl
  have h3 := Except.ok.inj h2
  exact Json.noConfusion h3

/-! ## Claim C3 -/

/-- C3 counterexample: for a missing file the raised message is the
source's literal text, which contains neither the claimed hint
`"Month must be written [out], [year] must be numeric."` nor even the
fragment `"year must be numeric"` (the source message reads
`"... month must be numeric"` and carries no final period). -/
theorem get_sales_hint_counterexample :
    get_sales (fun _ => none) 2024 "March" =
      .error "Sales data for march 2024 not found at data/sales_data/march_2024.csv. Month must be written, month must be numeric" ∧
    strContainsSub "Sales data for march 2024 not found at data/sales_data/march_2024.csv. Month must be written, month must be numeric"
      "Month must be written [out], [year] must be numeric." = false ∧
    strContainsSub "Sales data for march 2024 not found at data/sales_data/march_2024.csv. Month must be written, month must be numeric"
      "year must be numeric" = false := by
  refine ⟨rfl, ?_, ?_⟩ <;> rfl

/-- C3 (amended): `get_sales` lower-cases the month and resolves the path
`<sales-data-dir>/<month>_<year>.csv`; if that file exists, the CSV rows
after the header row are returned as field-to-value mappings in file
order; if it does not, the call fails with a `FileNotFoundError` whose
message contains the resolved file path and the source's literal hint
text `"Month must be written, month must be numeric"`. -/
theorem get_sales_partition (fs : String → Option String) (year : Int) (month : String) :
    (∀ content header rows, fs (sales_path year month) = some content →
        (splitOnChar '\n' content).filter (fun l => !l.isEmpty) = header :: rows →
        get_sales fs year month =
          .ok (rows.map (fun r => (splitOnChar ',' header).zip (splitOnChar ',' r)))) ∧
    (fs (sales_path year month) = none →
        get_sales fs year month =
          .error ("Sales data for " ++ pyLower month ++ " " ++ toString year ++
            " not found at " ++ sales_path year month ++
            ". Month must be written, month must be numeric") ∧
        strContainsSub
          ("Sales data for " ++ pyLower month ++ " " ++ toString year ++
            " not found at " ++ sales_path year month ++
            ". Month must be written, month must be numeric")
          (sales_path year month) = true ∧
        strContainsSub
          ("Sales data for " ++ pyLower month ++ " " ++ toString year ++
            " not found at " ++ sales_path year month ++
            ". Month must be written, month must be numeric")
          "Month must be written, month must be numeric" = true) := by
  constructor
  · intro content header rows hfs hsplit
    simp only [get_sales, hfs, parseCsv, hsplit]
  · intro hfs
    refine ⟨?_, ?_, ?_⟩
    · simp only [get_sales, hfs]
    · exact strContainsSub_append _ _ _
    · have h := strContainsSub_suffix
        ("Sales data for " ++ pyLower month ++ " " ++ toString year ++
          " not found at " ++ sales_path year month ++ ". ")
        "Month must be written, month must be numeric"
      simpa [String.append_assoc] using h


/-- Witness for C3 at a file system holding `march_2024.csv` with header
`id,amount` (success branch) and at the empty file system (failure
branch). -/
theorem get_sales_partition_witness :
    get_sales fsMarch 2024 "March" =
      .ok [[("id", "1"), ("amount", "100")], [("id", "2"), ("amount", "200")]] ∧
    (get_sales (fun _ => none) 2023 "June" =
      .error "Sales data for june 2023 not found at data/sales_data/june_2023.csv. Month must be written, month must be numeric" ∧
     strContainsSub
      "Sales data for june 2023 not found at data/sales_data/june_2023.csv. Month must be written, month must be numeric"
      (sales_path 2023 "June") = true ∧
     strContainsSub
      "Sales data for june 2023 not found at data/sales_data/june_2023.csv. Month must be written, month must be numeric"
      "Month must be written, month must be numeric" = true) := by
  constructor
  · exact (get_sales_partition fsMarch 2024 "March").1 "id,amount\n1,100\n2,200"
      "id,amount" ["1,100", "2,200"] rfl rfl
  · exact (get_sales_partition (fun _ => none) 2023 "June").2 rfl

/-! ## Claim C6 -/

/-- C6: for every URL and date, when the underlying HTTP request fails
(transport exception such as a network error or timeout, a non-2xx
status, or an unparsable body), neither fetch helper propagates an
exception — both are total functions into `Option` by construction, the
embedding of their all-catching `try/except` — and each failure collapses
to the `None` sentinel. -/
theorem fetch_helpers_collapse_failures (fetch : String → FetchOutcome)
    (url dateIso : String)
    (h1 : httpFailure (fetch url) = true)
    (h2 : httpFailure (fetch (API_BASE ++ "?published_at_gte=" ++ dateIso)) = true) :
    make_nws_request fetch url = none ∧ get_spaceflight_news_date fetch dateIso = none := by
  constructor
  · unfold make_nws_request
    cases hfo : fetch url with
    | exn => rfl
    | response status body =>
      rw [hfo] at h1
      unfold httpFailure at h1
      by_cases hc : 200 ≤ status ∧ status ≤ 299
      · have hj : jsonLoads body = none := by
          simpa [hc, Option.isNone_iff_eq_none] using h1
        simp [hc, hj]
      · simp [hc]
  · simp only [get_spaceflight_news_date]
    cases hfo : fetch (API_BASE ++ "?published_at_gte=" ++ dateIso) with
    | exn => rfl
    | response status body =>
      rw [hfo] at h2
      unfold httpFailure at h2
      by_cases hc : 200 ≤ status ∧ status ≤ 299
      · have hj : jsonLoads body = none := by
          simpa [hc, Option.isNone_iff_eq_none] using h2
        simp [hc, hj]
      · simp [hc]

/-- Witness for C6 at the oracle that always raises a transport
exception. -/
theorem fetch_helpers_collapse_failures_witness :
    make_nws_request (fun _ => FetchOutcome.exn)
      "https://api.weather.gov/alerts/active/area/CA" = none ∧
    get_spaceflight_news_date (fun _ => FetchOutcome.exn) "2026-10-12" = none :=
  fetch_helpers_collapse_failures (fun _ => FetchOutcome.exn)
    "https://api.weather.gov/alerts/active/area/CA" "2026-10-12" rfl rfl

/-! ## Claim C7 -/

/-- C7: when the news fetch succeeds with a non-empty article list, a
call with `language = "EN"` returns the raw `{title, summary}` list
unchanged with no sampling call made; a call with any other language
makes exactly one sampling call, and if sampling raises, the tool call
fails with `"Translation failed, LLM Sampling not available."`. -/
theorem spacenews_language_branch (fetch : String → FetchOutcome)
    (sample : String → Option String) (dateIso : String) (l : List (Json × Json))
    (h1 : get_spaceflight_news_date fetch dateIso = some l) (h2 : l ≠ []) :
    get_todays_spacenews fetch sample dateIso "EN" =
      (.ok (.news (news_out_of l)), 0) ∧
    (∀ language, language ≠ "EN" →
      (get_todays_spacenews fetch sample dateIso language).2 = 1) ∧
    (∀ language, language ≠ "EN" →
      sample (translation_prompt language (news_out_of l)) = none →
      get_todays_spacenews fetch sample dateIso language =
        (.error "Translation failed, LLM Sampling not available.", 1)) := by
  have hne : l.isEmpty = false := by
    cases l with
    | nil => exact absurd rfl h2
    | cons x xs => rfl
  refine ⟨?_, ?_, ?_⟩
  · unfold get_todays_spacenews
    rw [h1]
    simp [hne]
  · intro language hlang
    unfold get_todays_spacenews
    rw [h1]
    simp only [hne, Bool.false_eq_true, if_false]
    simp only [ne_eq, hlang, not_false_iff, if_true]
    cases sample (translation_prompt language (news_out_of l)) <;> rfl
  · intro language hlang hs
    unfold get_todays_spacenews
    rw [h1]
    simp only [hne, Bool.false_eq_true, if_false]
    simp only [ne_eq, hlang, not_false_iff, if_true]
    rw [hs]

/-- Witness for C7 at an oracle serving one article and a sampling
capability that always raises. -/
theorem spacenews_language_branch_witness :
    get_todays_spacenews fetchNews1 (fun _ => none) "2026-10-12" "EN" =
      (.ok (.news [Json.obj [("title", Json.str "T"), ("summary", Json.str "S")]]), 0) ∧
    get_todays_spacenews fetchNews1 (fun _ => none) "2026-10-12" "DE" =
      (.error "Translation failed, LLM Sampling not available.", 1) := by
  have h := spacenews_language_branch fetchNews1 (fun _ => none) "2026-10-12"
    [(Json.str "T", Json.str "S")] rfl (List.cons_ne_nil _ _)
  exact ⟨h.1, h.2.2 "DE" (by decide) rfl⟩

/-! ## Claim C8 -/

/-- C8: whenever the upstream news fetch fails or yields no results, the
tool call aborts with the protocol error `"API Call Failed."` and no
sampling call is made, regardless of the requested language. -/
theorem spacenews_upstream_failure (fetch : String → FetchOutcome)
    (sample : String → Option String) (dateIso language : String)
    (h : get_spaceflight_news_date fetch dateIso = none ∨
         get_spaceflight_news_date fetch dateIso = some []) :
    get_todays_spacenews fetch sample dateIso language = (.error "API Call Failed.", 0) := by
  unfold get_todays_spacenews
  rcases h with h | h
  · rw [h]
  · rw [h]
    rfl

/-- Witness for C8 at the always-raising HTTP oracle and a non-`EN`
language. -/
theorem spacenews_upstream_failure_witness :
    get_todays_spacenews (fun _ => FetchOutcome.exn) (fun _ => some "reply")
      "2026-10-12" "DE" = (.error "API Call Failed.", 0) :=
  spacenews_upstream_failure (fun _ => FetchOutcome.exn) (fun _ => some "reply")
    "2026-10-12" "DE" (Or.inl rfl)

/-! ## Claim C10 -/

/-- C10: `get_forecast` can raise an uncaught `KeyError` instead of
returning a fallback message: when the points request succeeds with a
truthy JSON object lacking `properties`, and likewise when a fetched
forecast period lacks a rendered field (`name` here). -/
theorem get_forecast_missing_key_raises :
    get_forecast fetchPointsNoProps "39.74" "-104.99" = .error "KeyError: properties" ∧
    get_forecast fetchPeriodNoName "39.74" "-104.99" = .error "KeyError: name" := by
  exact ⟨rfl, rfl⟩

/-! ## Claim C4 -/

/-- Key membership agrees with a successful lookup. -/
theorem lookupKV_any_true (kvs : List (String × Json)) (key : String) (v : Json)
    (h : lookupKV kvs key = some v) : (kvs.any (fun kv => kv.1 == key)) = true := by
  induction kvs with
  | nil => simp [lookupKV] at h
  | cons kv kvs ih =>
    obtain ⟨k, w⟩ := kv
    by_cases hk : k = key
    · simp [hk]
    · rw [lookupKV, if_neg hk] at h
      simp [ih h]

/-- Key membership agrees with a failed lookup. -/
theorem lookupKV_any_false (kvs : List (String × Json)) (key : String)
    (h : lookupKV kvs key = none) : (kvs.any (fun kv => kv.1 == key)) = false := by
  induction kvs with
  | nil => rfl
  | cons kv kvs ih =>
    obtain ⟨k, w⟩ := kv
    by_cases hk : k = key
    · rw [lookupKV, if_pos hk] at h
      exact absurd h (by simp)
    · rw [lookupKV, if_neg hk] at h
      simp [hk, ih h]

/-- A dict with a successful lookup is non-empty. -/
theorem lookupKV_ne_nil (kvs : List (String × Json)) (key : String) (v : Json)
    (h : lookupKV kvs key = some v) : kvs.isEmpty = false := by
  cases kvs with
  | nil => simp [lookupKV] at h
  | cons kv kvs => rfl

/-- Reduction of one `Except` bind step. -/
theorem except_ok_bind {α β : Type} (a : α) (f : α → Except String β) :
    ((Except.ok a : Except String α) >>= f) = f a := rfl

/-- C4 (amended): `get_alerts` returns `"Unable to fetch alerts or no
alerts found."` when the fetch yields no data or the parsed object lacks
a `features` key; returns `"No active alerts for this state."` when
`features` is the empty list; and for a non-empty `features` list whose
features all render (each carrying a `properties` mapping), returns the
rendered blocks joined by `"\n---\n"`, with `format_alert` substituting
`"Unknown"` for each missing `event`/`areaDesc`/`severity` field and the
fixed defaults for `description`/`instruction`. A feature without a
`properties` mapping instead raises an uncaught `KeyError` (see the
counterexample). -/
theorem get_alerts_spec (fetch : String → FetchOutcome) (state : String) :
    (make_nws_request fetch (NWS_API_BASE ++ "/alerts/active/area/" ++ state) = none →
      get_alerts fetch state = .ok "Unable to fetch alerts or no alerts found.") ∧
    (∀ fields, make_nws_request fetch (NWS_API_BASE ++ "/alerts/active/area/" ++ state) =
        some (Json.obj fields) → lookupKV fields "features" = none →
      get_alerts fetch state = .ok "Unable to fetch alerts or no alerts found.") ∧
    (∀ fields, make_nws_request fetch (NWS_API_BASE ++ "/alerts/active/area/" ++ state) =
        some (Json.obj fields) → lookupKV fields "features" = some (Json.arr []) →
      get_alerts fetch state = .ok "No active alerts for this state.") ∧
    (∀ fields feats alerts,
      make_nws_request fetch (NWS_API_BASE ++ "/alerts/active/area/" ++ state) =
        some (Json.obj fields) → lookupKV fields "features" = some (Json.arr feats) →
      feats ≠ [] → feats.mapM format_alert = .ok alerts →
      get_alerts fetch state = .ok (String.intercalate "\n---\n" alerts)) ∧
    format_alert (Json.obj [("properties", Json.obj [])]) =
      .ok "\n        Event: Unknown\n        Area: Unknown\n        Severity: Unknown\n        Description: No description available\n        Instructions: No specific instructions provided\n    " := by
  refine ⟨?_, ?_, ?_, ?_, rfl⟩
  · intro h
    simp only [get_alerts]
    rw [h]
    rfl
  · intro fields h2 hlk
    simp only [get_alerts]
    rw [h2]
    cases fields with
    | nil => rfl
    | cons kv kvs =>
      have hany := lookupKV_any_false _ "features" hlk
      simp [Json.pyTruthy, pyInOp, hany, except_ok_bind]
      rfl
  · intro fields h2 hlk
    simp only [get_alerts]
    rw [h2]
    have hne := lookupKV_ne_nil _ _ _ hlk
    have hany := lookupKV_any_true _ _ _ hlk
    simp [Json.pyTruthy, hne, pyInOp, hany, except_ok_bind, Json.getItem, hlk]
    rfl
  · intro fields feats alerts h2 hlk hfe hmap
    simp only [get_alerts]
    rw [h2]
    have hne := lookupKV_ne_nil _ _ _ hlk
    have hany := lookupKV_any_true _ _ _ hlk
    have hfe' : feats.isEmpty = false := by
      cases feats with
      | nil => exact absurd rfl hfe
      | cons x xs => rfl
    have hmap' : List.mapM.loop format_alert feats [] = Except.ok alerts := by
      simpa [List.mapM] using hmap
    simp [Json.pyTruthy, hne, pyInOp, hany, except_ok_bind, Json.getItem, hlk, hfe',
      pyIter, hmap']

/-- C4 counterexample: an alerts response whose single feature lacks a
`properties` mapping makes `get_alerts` raise an uncaught `KeyError`
instead of rendering the feature with `"Unknown"` substitutions. -/
theorem get_alerts_missing_properties_counterexample :
    get_alerts fetchAlertsNoProps "CA" = .error "KeyError: properties" := rfl

/-- Witness for C4 covering all three claimed branches: failed fetch,
missing `features`, empty `features`, and one feature with missing
`event`/`severity` fields. -/
theorem get_alerts_spec_witness :
    get_alerts (fun _ => FetchOutcome.exn) "CA" =
      .ok "Unable to fetch alerts or no alerts found." ∧
    get_alerts fetchAlertsNoFeatures "CA" =
      .ok "Unable to fetch alerts or no alerts found." ∧
    get_alerts fetchAlertsEmpty "CA" = .ok "No active alerts for this state." ∧
    get_alerts fetchAlertsOne "CA" =
      .ok "\n        Event: Unknown\n        Area: Denver\n        Severity: Unknown\n        Description: Dry\n        Instructions: Care\n    " := by
  refine ⟨?_, ?_, ?_, ?_⟩
  · exact (get_alerts_spec (fun _ => FetchOutcome.exn) "CA").1 rfl
  · exact (get_alerts_spec fetchAlertsNoFeatures "CA").2.1 [("title", Json.num 1)] rfl rfl
  · exact (get_alerts_spec fetchAlertsEmpty "CA").2.2.1 [("features", Json.arr [])] rfl rfl
  · exact (get_alerts_spec fetchAlertsOne "CA").2.2.2.1
      [("features", Json.arr [Json.obj [("properties",
        Json.obj [("areaDesc", Json.str "Denver"), ("description", Json.str "Dry"),
          ("instruction", Json.str "Care")])]])]
      [Json.obj [("properties",
        Json.obj [("areaDesc", Json.str "Denver"), ("description", Json.str "Dry"),
          ("instruction", Json.str "Care")])]]
      ["\n        Event: Unknown\n        Area: Denver\n        Severity: Unknown\n        Description: Dry\n        Instructions: Care\n    "]
      rfl rfl (List.cons_ne_nil _ _) rfl

/-! ## Claim C9 -/

/-- C9: for every successfully fetched forecast whose `periods` list has
more than 5 entries, `get_forecast` renders exactly the first 5 periods
in list order — each by `render_forecast_period` (period name,
temperature with degree symbol and unit, wind, detailed forecast) —
joined by `"\n---\n"`, ignoring all remaining periods (`ps.take 5`). -/
theorem get_forecast_truncation (fetch : String → FetchOutcome)
    (latitude longitude furl : String)
    (pfields ppf ffields fpf : List (String × Json)) (ps : List Json)
    (rendered : List String)
    (h1 : make_nws_request fetch
      (NWS_API_BASE ++ "/points/" ++ latitude ++ "," ++ longitude) =
      some (Json.obj pfields))
    (h2 : lookupKV pfields "properties" = some (Json.obj ppf))
    (h3 : lookupKV ppf "forecast" = some (Json.str furl))
    (h4 : make_nws_request fetch furl = some (Json.obj ffields))
    (h5 : lookupKV ffields "properties" = some (Json.obj fpf))
    (h6 : lookupKV fpf "periods" = some (Json.arr ps))
    (_h7 : 5 < ps.length)
    (h8 : (ps.take 5).mapM render_forecast_period = .ok rendered) :
    get_forecast fetch latitude longitude =
      .ok (String.intercalate "\n---\n" rendered) := by
  simp only [get_forecast]
  rw [h1]
  have hne1 := lookupKV_ne_nil _ _ _ h2
  have hne2 := lookupKV_ne_nil _ _ _ h5
  have hmap' : List.mapM.loop render_forecast_period (ps.take 5) [] =
      Except.ok rendered := by
    simpa [List.mapM] using h8
  simp [Json.pyTruthy, hne1, hne2, except_ok_bind, Json.getItem, h2, h3, h4, h5, h6,
    pySliceTake5, hmap']

set_option maxRecDepth 10000 in
/-- Witness for C9 at an oracle serving eight forecast periods, the last
three of which are `null` and would not even render; exactly the first
five are rendered. -/
theorem get_forecast_truncation_witness :
    get_forecast fetchForecast8 "39.74" "-104.99" =
      .ok "\n            P1:\n            Temperature: 1Â°F\n            Wind: 5 NW\n            Forecast: ok\n            \n---\n\n            P2:\n            Temperature: 2Â°F\n            Wind: 5 NW\n            Forecast: ok\n            \n---\n\n            P3:\n            Temperature: 3Â°F\n            Wind: 5 NW\n            Forecast: ok\n            \n---\n\n            P4:\n            Temperature: 4Â°F\n            Wind: 5 NW\n            Forecast: ok\n            \n---\n\n            P5:\n            Temperature: 5Â°F\n            Wind: 5 NW\n            Forecast: ok\n            " := by
  have hp : 5 < ([Json.obj [("name", Json.str "P1"), ("temperature", Json.num 1),
      ("temperatureUnit", Json.str "F"), ("windSpeed", Json.str "5"),
      ("windDirection", Json.str "NW"), ("detailedForecast", Json.str "ok")],
    Json.obj [("name", Json.str "P2"), ("temperature", Json.num 2),
      ("temperatureUnit", Json.str "F"), ("windSpeed", Json.str "5"),
      ("windDirection", Json.str "NW"), ("detailedForecast", Json.str "ok")],
    Json.obj [("name", Json.str "P3"), ("temperature", Json.num 3),
      ("temperatureUnit", Json.str "F"), ("windSpeed", Json.str "5"),
      ("windDirection", Json.str "NW"), ("detailedForecast", Json.str "ok")],
    Json.obj [("name", Json.str "P4"), ("temperature", Json.num 4),
      ("temperatureUnit", Json.str "F"), ("windSpeed", Json.str "5"),
      ("windDirection", Json.str "NW"), ("detailedForecast", Json.str "ok")],
    Json.obj [("name", Json.str "P5"), ("temperature", Json.num 5),
      ("temperatureUnit", Json.str "F"), ("windSpeed", Json.str "5"),
      ("windDirection", Json.str "NW"), ("detailedForecast", Json.str "ok")],
    Json.null, Json.null, Json.null] : List Json).length := by decide
  exact get_forecast_truncation fetchForecast8 "39.74" "-104.99" "https://fc.example/f"
    [("properties", Json.obj [("forecast", Json.str "https://fc.example/f")])]
    [("forecast", Json.str "https://fc.example/f")]
    [("properties", Json.obj [("periods", Json.arr
      [Json.obj [("name", Json.str "P1"), ("temperature", Json.num 1),
        ("temperatureUnit", Json.str "F"), ("windSpeed", Json.str "5"),
        ("windDirection", Json.str "NW"), ("detailedForecast", Json.str "ok")],
      Json.obj [("name", Json.str "P2"), ("temperature", Json.num 2),
        ("temperatureUnit", Json.str "F"), ("windSpeed", Json.str "5"),
        ("windDirection", Json.str "NW"), ("detailedForecast", Json.str "ok")],
      Json.obj [("name", Json.str "P3"), ("temperature", Json.num 3),
        ("temperatureUnit", Json.str "F"), ("windSpeed", Json.str "5"),
        ("windDirection", Json.str "NW"), ("detailedForecast", Json.str "ok")],
      Json.obj [("name", Json.str "P4"), ("temperature", Json.num 4),
        ("temperatureUnit", Json.str "F"), ("windSpeed", Json.str "5"),
        ("windDirection", Json.str "NW"), ("detailedForecast", Json.str "ok")],
      Json.obj [("name", Json.str "P5"), ("temperature", Json.num 5),
        ("temperatureUnit", Json.str "F"), ("windSpeed", Json.str "5"),
        ("windDirection", Json.str "NW"), ("detailedForecast", Json.str "ok")],
      Json.null, Json.null, Json.null])])]
    [("periods", Json.arr
      [Json.obj [("name", Json.str "P1"), ("temperature", Json.num 1),
        ("temperatureUnit", Json.str "F"), ("windSpeed", Json.str "5"),
        ("windDirection", Json.str "NW"), ("detailedForecast", Json.str "ok")],
      Json.obj [("name", Json.str "P2"), ("temperature", Json.num 2),
        ("temperatureUnit", Json.str "F"), ("windSpeed", Json.str "5"),
        ("windDirection", Json.str "NW"), ("detailedForecast", Json.str "ok")],
      Json.obj [("name", Json.str "P3"), ("temperature", Json.num 3),
        ("temperatureUnit", Json.str "F"), ("windSpeed", Json.str "5"),
        ("windDirection", Json.str "NW"), ("detailedForecast", Json.str "ok")],
      Json.obj [("name", Json.str "P4"), ("temperature", Json.num 4),
        ("temperatureUnit", Json.str "F"), ("windSpeed", Json.str "5"),
        ("windDirection", Json.str "NW"), ("detailedForecast", Json.str "ok")],
      Json.obj [("name", Json.str "P5"), ("temperature", Json.num 5),
        ("temperatureUnit", Json.str "F"), ("windSpeed", Json.str "5"),
        ("windDirection", Json.str "NW"), ("detailedForecast", Json.str "ok")],
      Json.null, Json.null, Json.null])]
    [Json.obj [("name", Json.str "P1"), ("temperature", Json.num 1),
      ("temperatureUnit", Json.str "F"), ("windSpeed", Json.str "5"),
      ("windDirection", Json.str "NW"), ("detailedForecast", Json.str "ok")],
    Json.obj [("name", Json.str "P2"), ("temperature", Json.num 2),
      ("temperatureUnit", Json.str "F"), ("windSpeed", Json.str "5"),
      ("windDirection", Json.str "NW"), ("detailedForecast", Json.str "ok")],
    Json.obj [("name", Json.str "P3"), ("temperature", Json.num 3),
      ("temperatureUnit", Json.str "F"), ("windSpeed", Json.str "5"),
      ("windDirection", Json.str "NW"), ("detailedForecast", Json.str "ok")],
    Json.obj [("name", Json.str "P4"), ("temperature", Json.num 4),
      ("temperatureUnit", Json.str "F"), ("windSpeed", Json.str "5"),
      ("windDirection", Json.str "NW"), ("detailedForecast", Json.str "ok")],
    Json.obj [("name", Json.str "P5"), ("temperature", Json.num 5),
      ("temperatureUnit", Json.str "F"), ("windSpeed", Json.str "5"),
      ("windDirection", Json.str "NW"), ("detailedForecast", Json.str "ok")],
    Json.null, Json.null, Json.null]
    ["\n            P1:\n            Temperature: 1Â°F\n            Wind: 5 NW\n            Forecast: ok\n            ",
     "\n            P2:\n            Temperature: 2Â°F\n            Wind: 5 NW\n            Forecast: ok\n            ",
     "\n            P3:\n            Temperature: 3Â°F\n            Wind: 5 NW\n            Forecast: ok\n            ",
     "\n            P4:\n            Temperature: 4Â°F\n            Wind: 5 NW\n            Forecast: ok\n            ",
     "\n            P5:\n            Temperature: 5Â°F\n            Wind: 5 NW\n            Forecast: ok\n            "]
    rfl rfl rfl rfl rfl rfl hp rfl

/-! ## Claim C5 -/

/-- Splitting of `process_query`'s content loop at a list append. -/
theorem process_loop_append (llm : List Message → List ContentBlock)
    (ct : String → String → List ToolResultItem)
    (xs ys : List ContentBlock) (st : PQState) :
    process_loop llm ct (xs ++ ys) st =
      (match process_loop llm ct xs st with
       | (st', none) => process_loop llm ct ys st'
       | (st', some e) => (st', some e)) := by
  induction xs generalizing st with
  | nil => simp [process_loop]
  | cons c cs ih =>
    simp only [List.cons_append, process_loop]
    rcases hpb : process_block llm ct st c with ⟨st', e?⟩
    cases e? with
    | none => simp [ih]
    | some e => simp

/-- The loop over content blocks without a tool use only appends their
texts to the output buffer and the blocks carrying text to the
accumulator. -/
theorem process_loop_no_tool (llm : List Message → List ContentBlock)
    (ct : String → String → List ToolResultItem)
    (bs : List ContentBlock) (st : PQState)
    (h : ∀ b ∈ bs, b.toolUse? = none) :
    process_loop llm ct bs st =
      ({ st with
          final_text := st.final_text ++ bs.filterMap ContentBlock.text?,
          assistant_message_content := st.assistant_message_content ++
            (bs.filter (fun b => b.text?.isSome)).map MsgItem.block }, none) := by
  induction bs generalizing st with
  | nil => simp [process_loop]
  | cons b bs ih =>
    have hb := h b (List.mem_cons_self _ _)
    have hb' : ∀ x ∈ bs, x.toolUse? = none := fun x hx => h x (List.mem_cons_of_mem _ hx)
    cases htb : b.text? with
    | none =>
      simp only [process_loop, process_block, hb, htb]
      rw [ih _ hb']
      simp [htb]
    | some t =>
      simp only [process_loop, process_block, hb, htb]
      rw [ih _ hb']
      simp [htb, List.append_assoc]

/-- C5 (amended): for a query whose first LLM response consists of text
blocks `pre`, exactly one tool-use block, and further text blocks `post`,
`process_query` performs exactly one tool invocation and exactly one
follow-up LLM call, and — provided the follow-up reply's first content
block carries text `t2` (otherwise a `KeyError` propagates) — returns the
newline join of: the texts of `pre`, the diagnostic line
`[Calling tool <name> with args <args>]`, the follow-up text `t2`, and
the texts of `post` (the claim as stated omits the trailing `post`
texts; see the counterexample). -/
theorem process_query_single_follow_up (llm : List Message → List ContentBlock)
    (ct : String → String → List ToolResultItem) (query : String)
    (pre post : List ContentBlock) (tb : ContentBlock) (tu : ToolUseBlock)
    (b2 : ContentBlock) (rest2 : List ContentBlock) (t2 : String)
    (h1 : llm (initMessages query) = pre ++ tb :: post)
    (h2 : ∀ b ∈ pre, b.toolUse? = none)
    (h3 : ∀ b ∈ post, b.toolUse? = none)
    (h4 : tb.toolUse? = some tu)
    (h5 : tb.text? = none)
    (h6 : llm (followUpMessages query pre tb tu ct) = b2 :: rest2)
    (h7 : b2.text? = some t2) :
    process_query llm ct query =
      (.ok (String.intercalate "\n"
        (pre.filterMap ContentBlock.text? ++
         ("[Calling tool " ++ tu.name ++ " with args " ++ tu.input ++ "]") :: t2 ::
         post.filterMap ContentBlock.text?)), 1, 1) := by
  simp only [process_query]
  rw [h1, process_loop_append,
    process_loop_no_tool llm ct pre ⟨[], [], initMessages query, 0, 0⟩ h2]
  simp only [List.nil_append]
  simp only [process_loop, process_block, h4, h5]
  rw [show (initMessages query ++
      [⟨"assistant", (pre.filter (fun b => b.text?.isSome)).map MsgItem.block ++
        [MsgItem.block tb]⟩,
       ⟨"user", [MsgItem.toolResult tu.toolUseId
        ((ct tu.name tu.input).filterMap
          (fun r => if r.type = "text" then some r.text else none))]⟩]) =
      followUpMessages query pre tb tu ct from rfl]
  rw [h6]
  simp only [h7]
  rw [process_loop_no_tool llm ct post _ h3]
  simp [List.append_assoc]

/-- C5 counterexample: with the initial response `[toolUse, text "TAIL"]`
(exactly one tool-use block) and a follow-up reply `"FOLLOW"`, the
returned text carries the trailing `"TAIL"` after the follow-up text, so
it is not the join of initial texts, diagnostic and follow-up text that
the claim states; tool and follow-up call counts are 1 as claimed. -/
theorem process_query_trailing_text_counterexample :
    process_query llmTrailingText callToolC5 "q" =
      (.ok ("[Calling tool get_alerts with args \x7b\x27state\x27: \x27CA\x27\x7d]\nFOLLOW\nTAIL"), 1, 1) ∧
    ("[Calling tool get_alerts with args \x7b\x27state\x27: \x27CA\x27\x7d]\nFOLLOW\nTAIL" : String) ≠
      "[Calling tool get_alerts with args \x7b\x27state\x27: \x27CA\x27\x7d]\nFOLLOW" := by
  exact ⟨rfl, by decide⟩

/-- Witness for C5 at an initial response `[text "INIT", toolUse]` and a
follow-up reply `"FOLLOW"`. -/
theorem process_query_single_follow_up_witness :
    process_query llmOneToolUse callToolC5 "q" =
      (.ok ("INIT\n[Calling tool get_alerts with args \x7b\x27state\x27: \x27CA\x27\x7d]\nFOLLOW"), 1, 1) := by
  have h := process_query_single_follow_up llmOneToolUse callToolC5 "q"
    [⟨some "INIT", none⟩] [] ⟨none, some toolUseC5⟩ toolUseC5
    ⟨some "FOLLOW", none⟩ [] "FOLLOW"
    rfl
    (by intro b hb; rw [List.mem_singleton.mp hb])
    (by intro b hb; exact absurd hb (List.not_mem_nil b))
    rfl rfl rfl rfl
  simpa using h

end Mcp
